import Mathlib

/-!
# Verification of the dashboard fetch/cache orchestration

Shallow embedding of the core of the employee-attendance dashboard:

* `src/src/pages/Index.tsx` — the fetch orchestrator (`fetchData`), the
  client-side roster filter, and the derived-state calculators
  (`getGenderData`, `getTravelData`);
* `src/unnamed/part_000` (the api service module) — construction of the
  query parameters of the `GET /attendance/records` request
  (`getAllAttendanceRecords`).

JavaScript numbers that matter here are either genuine numbers, `NaN`, or
`undefined`; we model the three-way distinction with `JsNum` and genuine
numbers with `ℚ` (the code never produces a non-integral value, but the
type of `travelKm` is an arbitrary number).  JavaScript `Date` values are
modelled by their `yyyy-MM-dd` string rendering, which is how the code
consumes them (`format(filters.date, 'yyyy-MM-dd')` and
`new Date(record.date)` round-trip through that rendering).
-/

/-- A JavaScript numeric slot as used by the orchestrator: a real number,
`NaN` (result of a failed coercion), or `undefined` (absent). `null` is
identified with `undefined`; the code always tests the two together. -/
inductive JsNum where
  | undef : JsNum
  | nan : JsNum
  | num : ℚ → JsNum
deriving DecidableEq, Repr

namespace JsNum

/-- JavaScript truthiness of a numeric slot: `undefined`, `NaN` and `0`
are falsy, everything else truthy. -/
def truthy : JsNum → Bool
  | undef => false
  | nan => false
  | num q => q != 0

/-- JavaScript `a >= b`: true only when both operands are numbers and the
comparison holds; any comparison involving `NaN`/`undefined` is false. -/
def jsGe : JsNum → JsNum → Bool
  | num a, num b => b ≤ a
  | _, _ => false

/-- JavaScript `a <= b`: true only when both operands are numbers and the
comparison holds; any comparison involving `NaN`/`undefined` is false. -/
def jsLe : JsNum → JsNum → Bool
  | num a, num b => a ≤ b
  | _, _ => false

end JsNum

/-- Digit-string accumulator: value of a list of decimal digits. -/
def digitsToNatAux : Nat → List Char → Nat
  | n, [] => n
  | n, c :: cs => digitsToNatAux (n * 10 + (c.toNat - 48)) cs

/-- Longest all-digit prefix of a character list. -/
def leadingDigits : List Char → List Char
  | [] => []
  | c :: cs => if c.isDigit then c :: leadingDigits cs else []

/-- JavaScript `parseFloat`, modelled on the domain the code applies it to
(the travel-bucket numerals, which are nonempty decimal-digit strings):
the value of the leading digit run, `NaN` when there is none, and `NaN`
for `parseFloat(undefined)`.  Signs, decimals and exponents never occur in
the bucket strings and are not modelled. -/
def jsParseFloat : Option String → JsNum
  | none => .nan
  | some s =>
    match leadingDigits s.data with
    | [] => .nan
    | ds => .num (digitsToNatAux 0 ds)

/-- JavaScript `Number(...)` coercion, modelled on the same domain:
`Number(undefined) = NaN`, `Number("") = 0`, an all-digit string is its
value, anything else is `NaN` (unlike `parseFloat`, a trailing non-digit
makes the whole coercion fail). -/
def jsNumber : Option String → JsNum
  | none => .nan
  | some s =>
    if s.data = [] then .num 0
    else if s.data.all Char.isDigit then .num (digitsToNatAux 0 s.data)
    else .nan

/-- `s.split('-')` on the underlying characters. -/
def splitOnDashAux : List Char → List Char → List (List Char)
  | [], acc => [acc.reverse]
  | c :: cs, acc =>
    if c = '-' then acc.reverse :: splitOnDashAux cs []
    else splitOnDashAux cs (c :: acc)

/-- JavaScript `s.split('-')`. -/
def splitOnDash (s : String) : List String :=
  (splitOnDashAux s.data []).map String.mk

/-- The filter state owned by `Index.tsx` (`filters` in the component).
`date` is the JS `Date | undefined`, modelled by its `yyyy-MM-dd`
rendering. -/
structure FilterState where
  gender : String
  department : String
  travelDistance : String
  attendanceStatus : String
  date : Option String
deriving DecidableEq, Repr

/-- Index.tsx lines 85–91: derivation of `travelMin`/`travelMax` from the
`travelDistance` bucket string.  Both stay `undefined` for `'all'`;
otherwise the bucket is split on `'-'`, `travelMin = parseFloat(minStr)`,
and `travelMax` is `undefined` when `maxStr === '100'`, else
`parseFloat(maxStr)`. -/
def travelBounds (travelDistance : String) : JsNum × JsNum :=
  if travelDistance = "all" then (.undef, .undef)
  else
    let parts := splitOnDash travelDistance
    let minStr := parts[0]?
    let maxStr := parts[1]?
    let travelMin := jsParseFloat minStr
    let travelMax := if maxStr = some "100" then .undef else jsParseFloat maxStr
    (travelMin, travelMax)

/-- Rendering of a `JsNum` inside a template literal.  Only nonnegative
integers ever reach the cache-key template (every `parseFloat` above
yields a natural number); the other branches are rendered with their
JavaScript spellings for completeness. -/
def jsNumToString : JsNum → String
  | .undef => "undefined"
  | .nan => "NaN"
  | .num q =>
    if q.den = 1 then
      if 0 ≤ q.num then Nat.repr q.num.toNat
      else "-" ++ Nat.repr (-q.num).toNat
    else Nat.repr q.num.natAbs ++ "/" ++ Nat.repr q.den

/-- JavaScript `v || 'any'` for a numeric slot inside a template literal:
the rendering of `v` when truthy (so `0`, `NaN`, `undefined` all fall
through), otherwise `'any'`. -/
def jsNumOrAny (v : JsNum) : String :=
  if v.truthy then jsNumToString v else "any"

/-- JavaScript `s || dflt` for a string-or-undefined slot: `dflt` when the
slot is `undefined` or the empty string. -/
def strOrDefault (s : Option String) (dflt : String) : String :=
  match s with
  | some s => if s = "" then dflt else s
  | none => dflt

/-- Index.tsx line 93: the attendance-records session-cache key
`` `attendanceRecords_${dateParam || 'latest'}_${genderParam}_${departmentParam}_${attendanceStatusParam}_${travelMin || 'any'}_${travelMax || 'any'}` ``. -/
def attendanceCacheKey (dateParam : Option String)
    (genderParam departmentParam attendanceStatusParam : String)
    (travelMin travelMax : JsNum) : String :=
  "attendanceRecords_" ++ strOrDefault dateParam "latest" ++ "_" ++
    genderParam ++ "_" ++ departmentParam ++ "_" ++ attendanceStatusParam ++
    "_" ++ jsNumOrAny travelMin ++ "_" ++ jsNumOrAny travelMax

/-- The cache key the orchestrator computes for a given filter state:
`dateParam` is the formatted date (or undefined), the gender, department
and status strings are taken verbatim from the filters, and the travel
bounds come from `travelBounds`. -/
def issuedCacheKey (flt : FilterState) : String :=
  let b := travelBounds flt.travelDistance
  attendanceCacheKey flt.date flt.gender flt.department flt.attendanceStatus b.1 b.2

/-- The query-parameter object built by `getAllAttendanceRecords` in the
api module (part_000 lines 60–89).  The function declares exactly four
parameters — `date_filter`, `gender_filter`, `travelDistanceMin`,
`travelDistanceMax`; there are no department or attendance-status
parameters in the request. -/
structure RecordsParams where
  date_filter : Option String
  gender_filter : Option String
  travelDistanceMin : Option JsNum
  travelDistanceMax : Option JsNum
deriving DecidableEq, Repr

/-- Lower-casing of an ASCII character (JavaScript `toLowerCase` on the
strings the filter UI produces). -/
def lowerChar (c : Char) : Char :=
  if 'A' ≤ c ∧ c ≤ 'Z' then Char.ofNat (c.toNat + 32) else c

/-- JavaScript `s.toLowerCase()` on ASCII strings. -/
def lowerString (s : String) : String :=
  String.mk (s.data.map lowerChar)

/-- part_000 lines 60–89, `getAllAttendanceRecords`: construction of the
`params` object.  `date_filter` is set when `dateFilter` is truthy;
`gender_filter` when `genderFilter` is truthy and not `'all'`
case-insensitively; the travel bounds when they are not
`undefined`/`null`.  The call site in Index.tsx passes two further
arguments (`departmentParam`, `attendanceStatusParam`), but the function
signature has only the four parameters below, so JavaScript discards the
extras. -/
def getAllAttendanceRecordsParams (dateFilter : Option String)
    (genderFilter : Option String) (travelDistanceMin travelDistanceMax : JsNum) :
    RecordsParams :=
  { date_filter :=
      match dateFilter with
      | some d => if d = "" then none else some d
      | none => none
    gender_filter :=
      match genderFilter with
      | some g => if g ≠ "" ∧ lowerString g ≠ "all" then some g else none
      | none => none
    travelDistanceMin :=
      if travelDistanceMin ≠ .undef then some travelDistanceMin else none
    travelDistanceMax :=
      if travelDistanceMax ≠ .undef then some travelDistanceMax else none }

/-- The attendance-records request the orchestrator issues for a filter
state (Index.tsx line 156): `getAllAttendanceRecords(dateParam,
genderParam, travelMin, travelMax, departmentParam,
attendanceStatusParam)` — the last two arguments fall outside the
function's parameter list and are dropped. -/
def issuedRecordsParams (flt : FilterState) : RecordsParams :=
  let b := travelBounds flt.travelDistance
  getAllAttendanceRecordsParams flt.date (some flt.gender) b.1 b.2

/-! ## Roster data and derived-state calculators -/

/-- An employee roster record, restricted to the fields the core reads:
`gender`, `department` and `travelKm` (plus the identifier).  `travelKm`
is a JS numeric slot because the code guards against `undefined`/`null`
values. -/
structure Employee where
  id : Nat
  gender : String
  department : String
  travelKm : JsNum
deriving DecidableEq, Repr

/-- A `{name, value}` chart datum. -/
structure NameValue where
  name : String
  value : Nat
deriving DecidableEq, Repr

/-- A `{range, count}` histogram bucket of `getTravelData`. -/
structure TravelRange where
  range : String
  count : Nat
deriving DecidableEq, Repr

/-- Index.tsx lines 233–247, `getGenderData`: a two-counter fold over the
(filtered) roster — `genderCount[emp.gender]++` only when the gender is
exactly `'Male'` or `'Female'` — rendered in insertion order
`[Male, Female]`. -/
def getGenderData (emps : List Employee) : List NameValue :=
  let genderCount := emps.foldl
    (fun (mf : Nat × Nat) emp =>
      if emp.gender = "Male" then (mf.1 + 1, mf.2)
      else if emp.gender = "Female" then (mf.1, mf.2 + 1)
      else mf)
    (0, 0)
  [⟨"Male", genderCount.1⟩, ⟨"Female", genderCount.2⟩]

/-- Replace the element at index `i` (no-op past the end), mirroring the
in-place `travelRanges[i].count++` updates. -/
def modifyIdx (f : α → α) : List α → Nat → List α
  | [], _ => []
  | a :: as, 0 => f a :: as
  | a :: as, n + 1 => a :: modifyIdx f as n

/-- The initial bucket array of `getTravelData`. -/
def initialTravelRanges : List TravelRange :=
  [⟨"0-5", 0⟩, ⟨"5-10", 0⟩, ⟨"10-15", 0⟩, ⟨"15-20", 0⟩, ⟨"20+", 0⟩]

/-- One `forEach` step of `getTravelData`: skip when `travelKm` is
`undefined`/`null`, otherwise bump the first bucket whose `km <= bound`
test passes (`NaN` fails every test and falls into the `else` bucket,
exactly as in JS). -/
def travelStep (ranges : List TravelRange) (emp : Employee) : List TravelRange :=
  match emp.travelKm with
  | .undef => ranges
  | km =>
    let i : Nat :=
      if km.jsLe (.num 5) then 0
      else if km.jsLe (.num 10) then 1
      else if km.jsLe (.num 15) then 2
      else if km.jsLe (.num 20) then 3
      else 4
    modifyIdx (fun r => { r with count := r.count + 1 }) ranges i

/-- Index.tsx lines 249–269, `getTravelData`: the five-bucket travel
histogram. -/
def getTravelData (emps : List Employee) : List TravelRange :=
  emps.foldl travelStep initialTravelRanges

/-- Index.tsx lines 183–205, the client-side employee filtering effect:
an empty roster short-circuits to `[]`; otherwise gender and department
are exact-matched unless `'all'`, and the travel bucket is split on `'-'`,
coerced with `Number`, and matched inclusively on both ends
(`emp.travelKm >= min && emp.travelKm <= max`). -/
def filterEmployees (flt : FilterState) (employeeData : List Employee) :
    List Employee :=
  if employeeData = [] then []
  else
    let result := employeeData
    let result :=
      if flt.gender ≠ "all" then result.filter (fun emp => emp.gender = flt.gender)
      else result
    let result :=
      if flt.department ≠ "all" then
        result.filter (fun emp => emp.department = flt.department)
      else result
    let result :=
      if flt.travelDistance ≠ "all" then
        let nums := (splitOnDash flt.travelDistance).map (fun s => jsNumber (some s))
        let min := (nums[0]?).getD .undef
        let max := (nums[1]?).getD .undef
        result.filter (fun emp => emp.travelKm.jsGe min && emp.travelKm.jsLe max)
      else result
    result

/-! ## The fetch orchestrator

`fetchData` in Index.tsx (lines 48–178) is a single asynchronous pass:
set the loading flag, hydrate every source from its cache entry, clear
the loading flag early on any cache hit, fire the five requests, fold
each settled response into live state and cache, and finally clear the
loading flag unconditionally.  The pass is modelled as a deterministic
function of the pre-pass state, the cache contents, and the five request
outcomes (`none` = the request failed and was caught/logged at its call
site; `some v` = it succeeded with payload `v`).  Within a pass the
closure captures `filters` once (React state), so every read of
`filters.*` uses the captured value, while `setFilters` updates feed the
*next* pass; the `isInitialDateSynchronized` ref is read and written
immediately.  JSON (de)serialization of cache payloads is the identity on
this data and is elided. -/

/-- An attendance record, restricted to the field the orchestrator reads
(`date`; `none` models an absent/falsy field — the code guards
`allRecords[0].date` for truthiness, and the empty string is falsy). -/
structure AttendanceRecord where
  id : Nat
  employeeName : String
  status : String
  date : Option String
deriving DecidableEq, Repr

/-- A monthly trend point. -/
structure TrendPoint where
  month : String
  presentPercent : ℚ
  latePercent : ℚ
  absentPercent : ℚ
deriving DecidableEq, Repr

/-- The two browser stores as read/written by the pass: the durable
`localStorage` entry `employeeData`, the fixed-key `sessionStorage`
entries, and the per-query `sessionStorage` records entries as an
association list keyed by the computed cache key.  The late/on-time
statistics payloads are pass-through JSON blobs, kept as strings. -/
structure Caches where
  employeeData : Option (List Employee)
  attendanceTrendData : Option (List TrendPoint)
  lateStatistics : Option String
  onTimeStatistics : Option String
  attendanceRecords : List (String × List AttendanceRecord)
deriving DecidableEq, Repr

/-- `sessionStorage.getItem(key)` for a records entry. -/
def lookupRecords (c : Caches) (key : String) : Option (List AttendanceRecord) :=
  (c.attendanceRecords.find? (fun kv => kv.1 = key)).map (fun kv => kv.2)

/-- `sessionStorage.setItem(key, ...)` for a records entry. -/
def setRecords (c : Caches) (key : String) (rs : List AttendanceRecord) : Caches :=
  { c with attendanceRecords :=
      (key, rs) :: c.attendanceRecords.filter (fun kv => kv.1 ≠ key) }

/-- The live component state touched by the pass: the loading flag, the
five data slots, the filter state, and the `isInitialDateSynchronized`
ref. -/
structure DashState where
  isLoading : Bool
  employeeData : List Employee
  attendanceTrendData : List TrendPoint
  attendanceRecords : List AttendanceRecord
  lateStatistics : Option String
  onTimeStatistics : Option String
  filters : FilterState
  synced : Bool
deriving DecidableEq, Repr

/-- Outcomes of the five concurrent requests of one pass: `none` means the
request failed (rejected promise, caught and logged at its call site). -/
structure NetworkOutcomes where
  employees : Option (List Employee)
  trends : Option (List TrendPoint)
  lateStats : Option String
  onTimeStats : Option String
  records : Option (List AttendanceRecord)
deriving DecidableEq, Repr

/-- `allRecords[0].date` of a response. -/
def firstDate (rs : List AttendanceRecord) : Option String :=
  (rs.head?).bind (fun r => r.date)

/-- Truthiness of a string-or-undefined slot. -/
def truthyStr : Option String → Bool
  | none => false
  | some s => s ≠ ""

/-- Cache hydration of the roster slot (Index.tsx lines 56–60); the `Bool`
component is the running `hasCachedDataBeenSet` flag. -/
def hydrateEmployees (c : Caches) (sp : DashState × Bool) : DashState × Bool :=
  match c.employeeData with
  | some v => ({ sp.1 with employeeData := v }, true)
  | none => sp

/-- Cache hydration of the trends slot (lines 62–66). -/
def hydrateTrends (c : Caches) (sp : DashState × Bool) : DashState × Bool :=
  match c.attendanceTrendData with
  | some v => ({ sp.1 with attendanceTrendData := v }, true)
  | none => sp

/-- Cache hydration of the late-statistics slot (lines 68–72). -/
def hydrateLateStats (c : Caches) (sp : DashState × Bool) : DashState × Bool :=
  match c.lateStatistics with
  | some v => ({ sp.1 with lateStatistics := v }, true)
  | none => sp

/-- Cache hydration of the on-time-statistics slot (lines 74–78). -/
def hydrateOnTimeStats (c : Caches) (sp : DashState × Bool) : DashState × Bool :=
  match c.onTimeStatistics with
  | some v => ({ sp.1 with onTimeStatistics := v }, true)
  | none => sp

/-- Cache hydration of the records slot (lines 94–104), including the
initial date sync from cached records: when the sync has not yet happened,
the captured date filter is undefined, and the cached set is non-empty
with a truthy date on its first record, adopt that date and set the
flag. -/
def hydrateRecords (flt : FilterState) (key : String) (c : Caches)
    (sp : DashState × Bool) : DashState × Bool :=
  match lookupRecords c key with
  | some rs =>
    let s := { sp.1 with attendanceRecords := rs }
    let s :=
      if s.synced = false ∧ flt.date = none ∧ rs ≠ [] ∧ truthyStr (firstDate rs) then
        { s with filters := { s.filters with date := firstDate rs }, synced := true }
      else s
    (s, true)
  | none => sp

/-- Whole cache-hydration phase of the pass, in source order. -/
def hydrate (flt : FilterState) (key : String) (c : Caches) (s : DashState) :
    DashState × Bool :=
  hydrateRecords flt key c
    (hydrateOnTimeStats c (hydrateLateStats c (hydrateTrends c
      (hydrateEmployees c (s, false)))))

/-- The pre-network part of the pass: `setIsLoading(true)` at effect
start, hydration from the caches, and the early `setIsLoading(false)`
when any cache hit occurred (lines 50, 56–109). -/
def afterHydration (s0 : DashState) (c : Caches) : DashState :=
  let flt := s0.filters
  let key := issuedCacheKey flt
  let sp := hydrate flt key c { s0 with isLoading := true }
  if sp.2 then { sp.1 with isLoading := false } else sp.1

/-- Whether any cache entry hit during hydration (`hasCachedDataBeenSet`). -/
def cacheHit (s0 : DashState) (c : Caches) : Bool :=
  (hydrate s0.filters (issuedCacheKey s0.filters) c { s0 with isLoading := true }).2

/-- The success handler of the attendance-records request (Index.tsx
lines 156–166): publish the fresh set, then either fire the initial date
sync (flag unset, captured date filter undefined, non-empty response with
a truthy first date) or reset the flag (flag set, empty response, captured
date filter still set); in every other combination leave the flag and the
filters alone.  The cache write is performed by the caller with the
captured key. -/
def recordsSuccess (flt : FilterState) (s : DashState)
    (allRecords : List AttendanceRecord) : DashState :=
  let s := { s with attendanceRecords := allRecords }
  if s.synced = false ∧ flt.date = none ∧ allRecords ≠ [] ∧
      truthyStr (firstDate allRecords) then
    { s with filters := { s.filters with date := firstDate allRecords },
             synced := true }
  else if s.synced = true ∧ allRecords = [] ∧ flt.date ≠ none then
    { s with synced := false }
  else s

/-- Settlement of the roster request (lines 115–122): on success replace
the slot and overwrite the durable cache entry; on failure leave both
alone. -/
def applyEmployees (net : NetworkOutcomes) (sc : DashState × Caches) :
    DashState × Caches :=
  match net.employees with
  | some v => ({ sc.1 with employeeData := v }, { sc.2 with employeeData := some v })
  | none => sc

/-- Settlement of the trends request (lines 125–132). -/
def applyTrends (net : NetworkOutcomes) (sc : DashState × Caches) :
    DashState × Caches :=
  match net.trends with
  | some v =>
    ({ sc.1 with attendanceTrendData := v },
     { sc.2 with attendanceTrendData := some v })
  | none => sc

/-- Settlement of the late-statistics request (lines 135–142). -/
def applyLateStats (net : NetworkOutcomes) (sc : DashState × Caches) :
    DashState × Caches :=
  match net.lateStats with
  | some v => ({ sc.1 with lateStatistics := v }, { sc.2 with lateStatistics := some v })
  | none => sc

/-- Settlement of the on-time-statistics request (lines 145–152). -/
def applyOnTimeStats (net : NetworkOutcomes) (sc : DashState × Caches) :
    DashState × Caches :=
  match net.onTimeStats with
  | some v =>
    ({ sc.1 with onTimeStatistics := v }, { sc.2 with onTimeStatistics := some v })
  | none => sc

/-- Settlement of the attendance-records request (lines 155–170): on
success run the success handler and overwrite the session cache entry
under the captured key. -/
def applyRecords (flt : FilterState) (key : String) (net : NetworkOutcomes)
    (sc : DashState × Caches) : DashState × Caches :=
  match net.records with
  | some rs => (recordsSuccess flt sc.1 rs, setRecords sc.2 key rs)
  | none => sc

/-- One complete orchestration pass: hydration, the five settlements
(each failure a no-op for its own source), and the final unconditional
`setIsLoading(false)` after `Promise.allSettled` (lines 173–174). -/
def fetchDataPass (s0 : DashState) (c : Caches) (net : NetworkOutcomes) :
    DashState × Caches :=
  let flt := s0.filters
  let key := issuedCacheKey flt
  let s1 := afterHydration s0 c
  let sc := applyRecords flt key net
    (applyOnTimeStats net (applyLateStats net (applyTrends net
      (applyEmployees net (s1, c)))))
  ({ sc.1 with isLoading := false }, sc.2)

/-- The filter state of the end-to-end scenario of the spec: gender
Female, department Engineering, travel bucket 0-5, status all, date
2024-03-01. -/
def scenarioFilters : FilterState :=
  ⟨"Female", "Engineering", "0-5", "all", some "2024-03-01"⟩

/-- The user clearing the date filter (DashboardFilters `onSelect` with a
null selection). -/
def clearDate (s : DashState) : DashState :=
  { s with filters := { s.filters with date := none } }

/-! ## General lemmas about the embedding -/

theorem lookupRecords_setRecords (c : Caches) (key : String)
    (rs : List AttendanceRecord) :
    lookupRecords (setRecords c key rs) key = some rs := by
  simp [lookupRecords, setRecords]

/-! ## C1 — end-to-end scenario -/

/-- C1, counterexample: for the scenario filter state the computed cache
key is NOT `attendanceRecords_2024-03-01_Female_Engineering_all_0_5` —
`travelMin` is the number `0`, which is falsy in JavaScript, so
`${travelMin || 'any'}` renders `any`, not `0`. -/
theorem scenario_cacheKey_not_as_claimed :
    (issuedCacheKey scenarioFilters =
      "attendanceRecords_2024-03-01_Female_Engineering_all_0_5") = False :=
  eq_false (by decide)

/-- C1 (amended): for the scenario filter state the orchestrator issues
the records request with `date_filter=2024-03-01`, `gender_filter=Female`,
`travelDistanceMin=0`, `travelDistanceMax=5` and no attendance-status
constraint, and stores the successful response in the session cache under
the key `attendanceRecords_2024-03-01_Female_Engineering_all_any_5` (the
falsy lower bound `0` renders as `any` in the key). -/
theorem scenario_request_and_cacheKey :
    issuedRecordsParams scenarioFilters =
      ⟨some "2024-03-01", some "Female", some (.num 0), some (.num 5)⟩ ∧
    issuedCacheKey scenarioFilters =
      "attendanceRecords_2024-03-01_Female_Engineering_all_any_5" ∧
    ∀ (il : Bool) (ed : List Employee) (td : List TrendPoint)
      (ar : List AttendanceRecord) (ls os : Option String) (sy : Bool) (c : Caches)
      (oe : Option (List Employee)) (ot : Option (List TrendPoint))
      (ol oo : Option String) (rs : List AttendanceRecord),
      lookupRecords
        (fetchDataPass ⟨il, ed, td, ar, ls, os, scenarioFilters, sy⟩ c
          ⟨oe, ot, ol, oo, some rs⟩).2
        (issuedCacheKey scenarioFilters) = some rs := by
  refine ⟨by decide, by decide, ?_⟩
  intro il ed td ar ls os sy c oe ot ol oo rs
  simp only [fetchDataPass, applyRecords]
  exact lookupRecords_setRecords _ _ _

/-! ## C2 — department and attendance status never reach the request -/

/-- C2: the claim says a non-`all` department or attendance status is
carried in the issued attendance-records request.  The code contradicts
its own comments here: `Index.tsx` passes `departmentParam` and
`attendanceStatusParam` as fifth and sixth arguments, but
`getAllAttendanceRecords` in the api module declares only four
parameters, so both extras are silently dropped — the issued request is
invariant under any change of department and attendance status, and for a
concrete non-`all` department/status the request carries no corresponding
parameter. -/
theorem recordsRequest_ignores_department_and_status :
    (∀ (flt : FilterState) (dept status : String),
      issuedRecordsParams
        { flt with department := dept, attendanceStatus := status } =
        issuedRecordsParams flt) ∧
    issuedRecordsParams ⟨"all", "Engineering", "all", "Late", none⟩ =
      ⟨none, none, none, none⟩ :=
  ⟨fun _ _ _ => rfl, by decide⟩

/-! ## C7 — the cache key is a deterministic function of its six inputs -/

/-- C7: the attendance-records cache key is a pure, deterministic function
of (date, gender, department, attendanceStatus, travelMin, travelMax):
any two filter states that agree on the first four fields and on the
derived travel bounds produce identical key strings. -/
theorem cacheKey_deterministic (f1 f2 : FilterState)
    (hdate : f1.date = f2.date) (hg : f1.gender = f2.gender)
    (hdep : f1.department = f2.department)
    (hst : f1.attendanceStatus = f2.attendanceStatus)
    (htb : travelBounds f1.travelDistance = travelBounds f2.travelDistance) :
    issuedCacheKey f1 = issuedCacheKey f2 := by
  simp only [issuedCacheKey, hdate, hg, hdep, hst, htb]

/-- Witness for C7: two filter states with syntactically different travel
bucket strings (`"0-5"` and `"00-005"`) but identical derived bounds get
the same key. -/
theorem cacheKey_deterministic_witness :
    travelBounds "0-5" = travelBounds "00-005" ∧
    issuedCacheKey ⟨"Female", "Engineering", "0-5", "all", some "2024-03-01"⟩ =
      issuedCacheKey ⟨"Female", "Engineering", "00-005", "all", some "2024-03-01"⟩ :=
  ⟨by decide,
   cacheKey_deterministic _ _ rfl rfl rfl rfl (by decide)⟩

/-! ## C8 — travel bucket to request-bound mapping -/

/-- C8: bucket `"20-100"` derives `travelMin = 20` and
`travelMax = undefined` (so the issued request carries
`travelDistanceMin=20` and no `travelDistanceMax`), and each of the other
UI buckets `"a-b"` derives `travelMin = a`, `travelMax = b`. -/
theorem travelBucket_bounds :
    travelBounds "20-100" = (.num 20, .undef) ∧
    (issuedRecordsParams ⟨"all", "all", "20-100", "all", none⟩).travelDistanceMin =
      some (.num 20) ∧
    (issuedRecordsParams ⟨"all", "all", "20-100", "all", none⟩).travelDistanceMax =
      none ∧
    travelBounds "0-5" = (.num 0, .num 5) ∧
    travelBounds "5-10" = (.num 5, .num 10) ∧
    travelBounds "10-15" = (.num 10, .num 15) ∧
    travelBounds "15-20" = (.num 15, .num 20) := by
  decide

/-! ## C5 — the travel histogram -/

theorem map_modifyIdx (g : α → β) (f : α → α) (hf : ∀ a, g (f a) = g a) :
    ∀ (l : List α) (i : Nat), (modifyIdx f l i).map g = l.map g := by
  intro l
  induction l with
  | nil => intro i; rfl
  | cons a as ih =>
    intro i
    cases i with
    | zero => simp [modifyIdx, hf]
    | succ n => simp [modifyIdx, ih]

theorem travelStep_map_range (acc : List TravelRange) (emp : Employee) :
    (travelStep acc emp).map TravelRange.range = acc.map TravelRange.range := by
  unfold travelStep
  cases emp.travelKm with
  | undef => rfl
  | nan =>
    exact map_modifyIdx TravelRange.range
      (fun r => { r with count := r.count + 1 }) (fun r => rfl) acc _
  | num q =>
    exact map_modifyIdx TravelRange.range
      (fun r => { r with count := r.count + 1 }) (fun r => rfl) acc _

theorem travelFold_map_range (emps : List Employee) :
    ∀ acc : List TravelRange,
      (emps.foldl travelStep acc).map TravelRange.range = acc.map TravelRange.range := by
  induction emps with
  | nil => intro acc; rfl
  | cons e es ih =>
    intro acc
    rw [List.foldl_cons, ih, travelStep_map_range]

/-- C5: the travel histogram always returns exactly the five fixed buckets
`0-5, 5-10, 10-15, 15-20, 20+`; a record whose `travelKm` is
undefined/null is counted in no bucket (removing it changes nothing);
boundary values land in the lower bucket (`5` in `0-5`, `10` in `5-10`);
and the sample `travelKm` values `[5,10,15,20,25]` put one count in each
bucket. -/
theorem travelHistogram_buckets :
    (∀ emps : List Employee,
      (getTravelData emps).map TravelRange.range =
        ["0-5", "5-10", "10-15", "15-20", "20+"]) ∧
    (∀ (xs ys : List Employee) (i : Nat) (g d : String),
      getTravelData (xs ++ ⟨i, g, d, .undef⟩ :: ys) = getTravelData (xs ++ ys)) ∧
    getTravelData [⟨1, "", "", .num 5⟩] =
      [⟨"0-5", 1⟩, ⟨"5-10", 0⟩, ⟨"10-15", 0⟩, ⟨"15-20", 0⟩, ⟨"20+", 0⟩] ∧
    getTravelData [⟨1, "", "", .num 10⟩] =
      [⟨"0-5", 0⟩, ⟨"5-10", 1⟩, ⟨"10-15", 0⟩, ⟨"15-20", 0⟩, ⟨"20+", 0⟩] ∧
    getTravelData [⟨1, "", "", .num 5⟩, ⟨2, "", "", .num 10⟩, ⟨3, "", "", .num 15⟩,
        ⟨4, "", "", .num 20⟩, ⟨5, "", "", .num 25⟩] =
      [⟨"0-5", 1⟩, ⟨"5-10", 1⟩, ⟨"10-15", 1⟩, ⟨"15-20", 1⟩, ⟨"20+", 1⟩] := by
  refine ⟨fun emps => travelFold_map_range emps initialTravelRanges, ?_,
    by decide, by decide, by decide⟩
  intro xs ys i g d
  unfold getTravelData
  rw [List.foldl_append, List.foldl_append, List.foldl_cons]
  rfl

/-! ## C6 — the gender distribution -/

theorem genderFold_counts (emps : List Employee) :
    ∀ m f : Nat,
      emps.foldl
        (fun (mf : Nat × Nat) emp =>
          if emp.gender = "Male" then (mf.1 + 1, mf.2)
          else if emp.gender = "Female" then (mf.1, mf.2 + 1)
          else mf)
        (m, f) =
      (m + emps.countP (fun e => e.gender == "Male"),
       f + emps.countP (fun e => e.gender == "Female")) := by
  induction emps with
  | nil => intro m f; simp
  | cons e es ih =>
    intro m f
    rw [List.foldl_cons]
    by_cases hm : e.gender = "Male"
    · simp [hm, ih, List.countP_cons]
      omega
    · by_cases hf : e.gender = "Female"
      · simp [hm, hf, ih, List.countP_cons]
        omega
      · simp [hm, hf, ih, List.countP_cons]

/-- C6: the gender distribution counts exactly the records whose gender is
literally `Male` or `Female` — the output is always
`[{Male, #Male records}, {Female, #Female records}]`, so any other gender
value is excluded from both buckets — and the sample roster
`[Male, Female, Other]` yields `[{Male,1},{Female,1}]`. -/
theorem genderDistribution_counts :
    (∀ emps : List Employee,
      getGenderData emps =
        [⟨"Male", emps.countP (fun e => e.gender == "Male")⟩,
         ⟨"Female", emps.countP (fun e => e.gender == "Female")⟩]) ∧
    getGenderData [⟨1, "Male", "", .undef⟩, ⟨2, "Female", "", .undef⟩,
        ⟨3, "Other", "", .undef⟩] =
      [⟨"Male", 1⟩, ⟨"Female", 1⟩] := by
  refine ⟨fun emps => ?_, by decide⟩
  unfold getGenderData
  rw [genderFold_counts]
  simp

/-! ## The records success handler: helper lemmas -/

theorem recordsSuccess_fires (flt : FilterState) (s : DashState)
    (r : AttendanceRecord) (rest : List AttendanceRecord) (d : String)
    (hsync : s.synced = false) (hdate : flt.date = none)
    (hr : r.date = some d) (hd : d ≠ "") :
    recordsSuccess flt s (r :: rest) =
      { s with attendanceRecords := r :: rest,
               filters := { s.filters with date := some d },
               synced := true } := by
  have hfd : firstDate (r :: rest) = some d := by simp [firstDate, hr]
  unfold recordsSuccess
  dsimp only
  rw [if_pos ⟨hsync, hdate, List.cons_ne_nil r rest, by simp [hfd, truthyStr, hd]⟩]
  simp [hfd]

theorem recordsSuccess_resets (flt : FilterState) (s : DashState)
    (hsync : s.synced = true) (hdate : flt.date ≠ none) :
    recordsSuccess flt s [] =
      { s with attendanceRecords := [], synced := false } := by
  unfold recordsSuccess
  dsimp only
  rw [if_neg (by simp [hsync]), if_pos ⟨hsync, rfl, hdate⟩]

theorem recordsSuccess_skips_nonempty (flt : FilterState) (s : DashState)
    (a : AttendanceRecord) (l : List AttendanceRecord) (hsync : s.synced = true) :
    recordsSuccess flt s (a :: l) = { s with attendanceRecords := a :: l } := by
  unfold recordsSuccess
  dsimp only
  rw [if_neg (by simp [hsync]), if_neg (by simp)]

/-! ## C3 — the initial date auto-sync -/

/-- C3: when the auto-sync flag is unset and the date filter undefined, a
non-empty fresh records response whose first record carries a (truthy)
date makes the filter date that record's date and sets the flag; from
then on, any further sequence of non-empty responses leaves both the date
and the flag untouched (the sync never re-fires). -/
theorem autoSync_fires_once (s : DashState) (r : AttendanceRecord)
    (rest : List AttendanceRecord) (d : String)
    (hsync : s.synced = false) (hdate : s.filters.date = none)
    (hr : r.date = some d) (hd : d ≠ "") :
    (recordsSuccess s.filters s (r :: rest)).filters.date = some d ∧
    (recordsSuccess s.filters s (r :: rest)).synced = true ∧
    ∀ resps : List (AttendanceRecord × List AttendanceRecord),
      (resps.foldl (fun st fr => recordsSuccess st.filters st (fr.1 :: fr.2))
          (recordsSuccess s.filters s (r :: rest))).filters.date = some d ∧
      (resps.foldl (fun st fr => recordsSuccess st.filters st (fr.1 :: fr.2))
          (recordsSuccess s.filters s (r :: rest))).synced = true := by
  have hfire := recordsSuccess_fires s.filters s r rest d hsync hdate hr hd
  have inv : ∀ (resps : List (AttendanceRecord × List AttendanceRecord))
      (st : DashState), st.synced = true →
      (resps.foldl (fun st fr => recordsSuccess st.filters st (fr.1 :: fr.2))
          st).filters = st.filters ∧
      (resps.foldl (fun st fr => recordsSuccess st.filters st (fr.1 :: fr.2))
          st).synced = true := by
    intro resps
    induction resps with
    | nil => intro st h; exact ⟨rfl, h⟩
    | cons p ps ih =>
      intro st h
      rw [List.foldl_cons, recordsSuccess_skips_nonempty st.filters st p.1 p.2 h]
      exact ih _ h
  refine ⟨by rw [hfire], by rw [hfire], fun resps => ?_⟩
  have h2 : (recordsSuccess s.filters s (r :: rest)).synced = true := by rw [hfire]
  obtain ⟨hF, hS⟩ := inv resps _ h2
  exact ⟨by rw [hF, hfire], hS⟩

/-- Witness for C3: from an unsynced state with no date filter, the fresh
response `[{date: "2024-03-01"}]` makes the date filter `2024-03-01` and
sets the flag. -/
theorem autoSync_fires_once_witness :
    (recordsSuccess
        (⟨true, [], [], [], none, none, ⟨"all", "all", "all", "all", none⟩, false⟩ :
          DashState).filters
        ⟨true, [], [], [], none, none, ⟨"all", "all", "all", "all", none⟩, false⟩
        [⟨1, "A", "OnTime", some "2024-03-01"⟩]).filters.date = some "2024-03-01" ∧
    (recordsSuccess
        (⟨true, [], [], [], none, none, ⟨"all", "all", "all", "all", none⟩, false⟩ :
          DashState).filters
        ⟨true, [], [], [], none, none, ⟨"all", "all", "all", "all", none⟩, false⟩
        [⟨1, "A", "OnTime", some "2024-03-01"⟩]).synced = true :=
  ⟨(autoSync_fires_once _ _ [] "2024-03-01" rfl rfl rfl (by decide)).1,
   (autoSync_fires_once _ _ [] "2024-03-01" rfl rfl rfl (by decide)).2.1⟩

/-! ## C4 — the auto-sync reset -/

/-- C4: the flag written by the records success handler is fully
characterized — it becomes set exactly on an initial sync, becomes unset
exactly when the flag was set, the response is empty and the date filter
still set (with the filter state itself untouched by that reset), and in
every other combination it is unchanged; and after such a reset, clearing
the date filter lets a non-empty response re-trigger the sync to the new
first date. -/
theorem autoSync_reset :
    (∀ (flt : FilterState) (s : DashState) (fresh : List AttendanceRecord),
      (recordsSuccess flt s fresh).synced =
        if s.synced = false ∧ flt.date = none ∧ fresh ≠ [] ∧
            truthyStr (firstDate fresh) = true then true
        else if s.synced = true ∧ fresh = [] ∧ flt.date ≠ none then false
        else s.synced) ∧
    (∀ (s : DashState) (d : String), s.synced = true → s.filters.date = some d →
      (recordsSuccess s.filters s []).synced = false ∧
      (recordsSuccess s.filters s []).filters = s.filters) ∧
    (∀ (s : DashState) (d : String) (r2 : AttendanceRecord)
        (rest2 : List AttendanceRecord) (d2 : String),
      s.synced = true → s.filters.date = some d → r2.date = some d2 → d2 ≠ "" →
      (recordsSuccess (clearDate (recordsSuccess s.filters s [])).filters
          (clearDate (recordsSuccess s.filters s []))
          (r2 :: rest2)).synced = true ∧
      (recordsSuccess (clearDate (recordsSuccess s.filters s [])).filters
          (clearDate (recordsSuccess s.filters s []))
          (r2 :: rest2)).filters.date = some d2) := by
  refine ⟨?_, ?_, ?_⟩
  · intro flt s fresh
    unfold recordsSuccess
    dsimp only
    split_ifs <;> rfl
  · intro s d hsync hdate
    rw [recordsSuccess_resets s.filters s hsync (by rw [hdate]; exact Option.some_ne_none d)]
    exact ⟨rfl, rfl⟩
  · intro s d r2 rest2 d2 hsync hdate hr2 hd2
    rw [recordsSuccess_resets s.filters s hsync (by rw [hdate]; exact Option.some_ne_none d)]
    rw [recordsSuccess_fires _ _ r2 rest2 d2 rfl rfl hr2 hd2]
    exact ⟨rfl, rfl⟩

/-- Witness for C4: a synced state whose date filter is `2024-03-01`
receives an empty response — the flag resets and the filters are
untouched; after the user clears the date, the response
`[{date: "2024-04-01"}]` re-syncs the date filter to `2024-04-01`. -/
theorem autoSync_reset_witness :
    ((recordsSuccess
        (⟨false, [], [], [], none, none,
            ⟨"all", "all", "all", "all", some "2024-03-01"⟩, true⟩ :
          DashState).filters
        ⟨false, [], [], [], none, none,
            ⟨"all", "all", "all", "all", some "2024-03-01"⟩, true⟩
        []).synced = false) ∧
    ((recordsSuccess
        (clearDate (recordsSuccess
          (⟨false, [], [], [], none, none,
              ⟨"all", "all", "all", "all", some "2024-03-01"⟩, true⟩ :
            DashState).filters
          ⟨false, [], [], [], none, none,
              ⟨"all", "all", "all", "all", some "2024-03-01"⟩, true⟩ [])).filters
        (clearDate (recordsSuccess
          (⟨false, [], [], [], none, none,
              ⟨"all", "all", "all", "all", some "2024-03-01"⟩, true⟩ :
            DashState).filters
          ⟨false, [], [], [], none, none,
              ⟨"all", "all", "all", "all", some "2024-03-01"⟩, true⟩ []))
        [⟨2, "B", "Late", some "2024-04-01"⟩]).filters.date = some "2024-04-01") :=
  ⟨(autoSync_reset.2.1 _ "2024-03-01" rfl rfl).1,
   (autoSync_reset.2.2 _ "2024-03-01" _ [] "2024-04-01" rfl rfl rfl (by decide)).2⟩

/-! ## C9 — failure isolation and the loading flag -/

theorem recordsSuccess_employeeData (flt : FilterState) (s : DashState)
    (rs : List AttendanceRecord) :
    (recordsSuccess flt s rs).employeeData = s.employeeData := by
  unfold recordsSuccess; dsimp only; split_ifs <;> rfl

theorem recordsSuccess_attendanceTrendData (flt : FilterState) (s : DashState)
    (rs : List AttendanceRecord) :
    (recordsSuccess flt s rs).attendanceTrendData = s.attendanceTrendData := by
  unfold recordsSuccess; dsimp only; split_ifs <;> rfl

theorem recordsSuccess_lateStatistics (flt : FilterState) (s : DashState)
    (rs : List AttendanceRecord) :
    (recordsSuccess flt s rs).lateStatistics = s.lateStatistics := by
  unfold recordsSuccess; dsimp only; split_ifs <;> rfl

theorem recordsSuccess_onTimeStatistics (flt : FilterState) (s : DashState)
    (rs : List AttendanceRecord) :
    (recordsSuccess flt s rs).onTimeStatistics = s.onTimeStatistics := by
  unfold recordsSuccess; dsimp only; split_ifs <;> rfl

theorem hydrateEmployees_isLoading (c : Caches) (sp : DashState × Bool) :
    (hydrateEmployees c sp).1.isLoading = sp.1.isLoading := by
  rcases h : c.employeeData with _ | v <;> simp [hydrateEmployees, h]

theorem hydrateTrends_isLoading (c : Caches) (sp : DashState × Bool) :
    (hydrateTrends c sp).1.isLoading = sp.1.isLoading := by
  rcases h : c.attendanceTrendData with _ | v <;> simp [hydrateTrends, h]

theorem hydrateLateStats_isLoading (c : Caches) (sp : DashState × Bool) :
    (hydrateLateStats c sp).1.isLoading = sp.1.isLoading := by
  rcases h : c.lateStatistics with _ | v <;> simp [hydrateLateStats, h]

theorem hydrateOnTimeStats_isLoading (c : Caches) (sp : DashState × Bool) :
    (hydrateOnTimeStats c sp).1.isLoading = sp.1.isLoading := by
  rcases h : c.onTimeStatistics with _ | v <;> simp [hydrateOnTimeStats, h]

theorem hydrateRecords_isLoading (flt : FilterState) (key : String) (c : Caches)
    (sp : DashState × Bool) :
    (hydrateRecords flt key c sp).1.isLoading = sp.1.isLoading := by
  unfold hydrateRecords
  rcases h : lookupRecords c key with _ | rs <;> simp only [h]
  split <;> rfl

theorem hydrate_isLoading (flt : FilterState) (key : String) (c : Caches)
    (s : DashState) : (hydrate flt key c s).1.isLoading = s.isLoading := by
  unfold hydrate
  rw [hydrateRecords_isLoading, hydrateOnTimeStats_isLoading,
    hydrateLateStats_isLoading, hydrateTrends_isLoading, hydrateEmployees_isLoading]

/-- C9: failure isolation of the five requests and the loading flag.
After a full pass the loading flag is always cleared; the loading flag is
cleared at hydration time exactly when some cache entry hit; and for each
of the five sources, a failed request leaves that source's live-state
slot exactly as hydration left it and its cache entry exactly as it was
before the pass — regardless of how the four sibling requests fared. -/
theorem fetchFailure_noop :
    (∀ (s : DashState) (c : Caches) (net : NetworkOutcomes),
      (fetchDataPass s c net).1.isLoading = false) ∧
    (∀ (s : DashState) (c : Caches),
      (afterHydration s c).isLoading = !(cacheHit s c)) ∧
    (∀ (s : DashState) (c : Caches) (ot : Option (List TrendPoint))
        (ol oo : Option String) (orr : Option (List AttendanceRecord)),
      (fetchDataPass s c ⟨none, ot, ol, oo, orr⟩).1.employeeData =
        (afterHydration s c).employeeData ∧
      (fetchDataPass s c ⟨none, ot, ol, oo, orr⟩).2.employeeData =
        c.employeeData) ∧
    (∀ (s : DashState) (c : Caches) (oe : Option (List Employee))
        (ol oo : Option String) (orr : Option (List AttendanceRecord)),
      (fetchDataPass s c ⟨oe, none, ol, oo, orr⟩).1.attendanceTrendData =
        (afterHydration s c).attendanceTrendData ∧
      (fetchDataPass s c ⟨oe, none, ol, oo, orr⟩).2.attendanceTrendData =
        c.attendanceTrendData) ∧
    (∀ (s : DashState) (c : Caches) (oe : Option (List Employee))
        (ot : Option (List TrendPoint)) (oo : Option String)
        (orr : Option (List AttendanceRecord)),
      (fetchDataPass s c ⟨oe, ot, none, oo, orr⟩).1.lateStatistics =
        (afterHydration s c).lateStatistics ∧
      (fetchDataPass s c ⟨oe, ot, none, oo, orr⟩).2.lateStatistics =
        c.lateStatistics) ∧
    (∀ (s : DashState) (c : Caches) (oe : Option (List Employee))
        (ot : Option (List TrendPoint)) (ol : Option String)
        (orr : Option (List AttendanceRecord)),
      (fetchDataPass s c ⟨oe, ot, ol, none, orr⟩).1.onTimeStatistics =
        (afterHydration s c).onTimeStatistics ∧
      (fetchDataPass s c ⟨oe, ot, ol, none, orr⟩).2.onTimeStatistics =
        c.onTimeStatistics) ∧
    (∀ (s : DashState) (c : Caches) (oe : Option (List Employee))
        (ot : Option (List TrendPoint)) (ol oo : Option String),
      (fetchDataPass s c ⟨oe, ot, ol, oo, none⟩).1.attendanceRecords =
        (afterHydration s c).attendanceRecords ∧
      (fetchDataPass s c ⟨oe, ot, ol, oo, none⟩).2.attendanceRecords =
        c.attendanceRecords) := by
  refine ⟨fun s c net => rfl, ?_, ?_, ?_, ?_, ?_, ?_⟩
  · intro s c
    unfold afterHydration cacheHit
    rcases hb : (hydrate s.filters (issuedCacheKey s.filters) c
        { s with isLoading := true }).2 <;>
      simp [hb, hydrate_isLoading]
  · intro s c ot ol oo orr
    cases ot <;> cases ol <;> cases oo <;> cases orr <;>
      simp [fetchDataPass, applyEmployees, applyTrends, applyLateStats,
        applyOnTimeStats, applyRecords, setRecords, recordsSuccess_employeeData]
  · intro s c oe ol oo orr
    cases oe <;> cases ol <;> cases oo <;> cases orr <;>
      simp [fetchDataPass, applyEmployees, applyTrends, applyLateStats,
        applyOnTimeStats, applyRecords, setRecords,
        recordsSuccess_attendanceTrendData]
  · intro s c oe ot oo orr
    cases oe <;> cases ot <;> cases oo <;> cases orr <;>
      simp [fetchDataPass, applyEmployees, applyTrends, applyLateStats,
        applyOnTimeStats, applyRecords, setRecords, recordsSuccess_lateStatistics]
  · intro s c oe ot ol orr
    cases oe <;> cases ot <;> cases ol <;> cases orr <;>
      simp [fetchDataPass, applyEmployees, applyTrends, applyLateStats,
        applyOnTimeStats, applyRecords, setRecords,
        recordsSuccess_onTimeStatistics]
  · intro s c oe ot ol oo
    cases oe <;> cases ot <;> cases ol <;> cases oo <;>
      simp [fetchDataPass, applyEmployees, applyTrends, applyLateStats,
        applyOnTimeStats, applyRecords]

/-! ## C10 — bucket 20-100 on the client-side roster filter -/

theorem jsRange_iff (v : JsNum) (a b : ℚ) :
    (v.jsGe (.num a) && v.jsLe (.num b)) = true ↔
      ∃ q : ℚ, v = .num q ∧ a ≤ q ∧ q ≤ b := by
  cases v <;> simp [JsNum.jsGe, JsNum.jsLe]

/-- C10: with the travel bucket `"20-100"` selected (other filters
`all`), the client-side roster filter keeps exactly the employees whose
`travelKm` is a number in the closed interval `[20, 100]` — so an
employee at 150 km is dropped from the filtered roster and the
demographics charts — even though the very same bucket maps to an
unbounded request (`travelDistanceMax` absent) and the histogram's `20+`
bucket counts that employee. -/
theorem clientFilter_bucket20 :
    (∀ (emps : List Employee) (e : Employee),
      e ∈ filterEmployees ⟨"all", "all", "20-100", "all", none⟩ emps ↔
        e ∈ emps ∧ ∃ q : ℚ, e.travelKm = .num q ∧ 20 ≤ q ∧ q ≤ 100) ∧
    filterEmployees ⟨"all", "all", "20-100", "all", none⟩
      [⟨1, "Male", "Engineering", .num 150⟩] = [] ∧
    getTravelData [⟨1, "Male", "Engineering", .num 150⟩] =
      [⟨"0-5", 0⟩, ⟨"5-10", 0⟩, ⟨"10-15", 0⟩, ⟨"15-20", 0⟩, ⟨"20+", 1⟩] ∧
    travelBounds "20-100" = (.num 20, .undef) ∧
    (issuedRecordsParams ⟨"all", "all", "20-100", "all", none⟩).travelDistanceMax =
      none := by
  refine ⟨?_, by decide, by decide, by decide, by decide⟩
  intro emps e
  unfold filterEmployees
  by_cases h : emps = []
  · simp [h]
  · rw [if_neg h]
    dsimp only
    rw [if_pos (by simp), if_neg (by simp), if_neg (by simp)]
    have h20 : ((((splitOnDash "20-100").map
        (fun s => jsNumber (some s)))[0]?).getD JsNum.undef) = .num 20 := by decide
    have h100 : ((((splitOnDash "20-100").map
        (fun s => jsNumber (some s)))[1]?).getD JsNum.undef) = .num 100 := by decide
    simp only [h20, h100, List.mem_filter, jsRange_iff]
